import Mathlib

/-!
Verification of the pymilvus-dify-plugin connection-and-search façade.

The Lean definitions below are a shallow embedding of the Python source:
  * `src/provider/milvus.py`   — URI normalization in `_validate_milvus_connection`
  * `src/tools/milvus_text_search.py` — URI fixing in `_perform_vector_search`,
    min-similarity post-filter in `_invoke`
  * `src/tools/milvus_base.py` — `_create_error_response`
  * `src/lib/milvus_client.py` — `_create_client`, `create_collection_with_schema`,
    `vector_search`, `hybrid_search`, `describe_collection`'s
    `convert_to_serializable`
  * `src/tools/milvus_delete.py` — `MilvusDeleteTool._invoke`

Python strings are modelled as Lean `String` (a list of characters), Python
floats that only ever carry scores/thresholds as `ℚ`, Python `None`/empty
values as `Option`/emptiness, and exceptions as explicit error results.
External effects (DNS, sockets, the remote engine, `urllib.parse`) are
modelled as oracle parameters, and the side effects the claims talk about
(network calls, socket open/close, alarm arm/disarm) as explicit event
traces.
-/

namespace Milvus

/-! ## Python string primitives -/

/-- Model of Python `str.startswith`: the pattern's characters are a prefix
of the subject's characters. -/
def pyStartsWith (s pat : String) : Bool :=
  pat.data.isPrefixOf s.data

/-- Model of Python `c in s` for a single character. -/
def pyContainsChar (s : String) (c : Char) : Bool :=
  s.data.contains c

/-- Substring test over character lists (Python `needle in hay`). -/
def listContainsSub (needle : List Char) : List Char → Bool
  | [] => needle.isEmpty
  | c :: rest => needle.isPrefixOf (c :: rest) || listContainsSub needle rest

/-- Model of Python `needle in hay` for strings. -/
def pyIn (needle hay : String) : Bool :=
  listContainsSub needle.data hay.data

/-- Model of Python `str.lower` (ASCII-adequate for the matched keywords). -/
def pyLower (s : String) : String :=
  ⟨s.data.map Char.toLower⟩

/-- Helper for `pyTitle`: uppercase a letter starting a run, lowercase the
rest, tracking whether the previous character was alphabetic. -/
def pyTitleAux : Bool → List Char → List Char
  | _, [] => []
  | prevAlpha, c :: cs =>
    let c' := if c.isAlpha then (if prevAlpha then c.toLower else c.toUpper) else c
    c' :: pyTitleAux c.isAlpha cs

/-- Model of Python `str.title` (ASCII-adequate for operation names). -/
def pyTitle (s : String) : String :=
  ⟨pyTitleAux false s.data⟩

/-- Model of Python `str.rstrip('/')`: drop trailing slash characters. -/
def pyRstripSlash (s : String) : String :=
  ⟨(s.data.reverse.dropWhile (fun c => c == '/')).reverse⟩

/-- Python truthiness of an optional string: `None` and `""` are falsy. -/
def pyTruthy : Option String → Bool
  | none => false
  | some s => !s.isEmpty

/-! ## URI normalization (C4)

`src/provider/milvus.py` lines 124–144 and
`src/tools/milvus_text_search.py` lines 276–279. -/

/-- URI normalization performed by `MilvusProvider._validate_milvus_connection`
(`src/provider/milvus.py`): URIs already carrying one of the four accepted
schemes are kept, a bare `host:port` becomes `https://host:port`, a bare
`host` becomes `https://host:443`. -/
def normalize_uri (uri : String) : String :=
  if pyStartsWith uri "https://" then uri
  else if pyStartsWith uri "http://" then uri
  else if pyStartsWith uri "tcp://" then uri
  else if pyStartsWith uri "unix://" then uri
  else if pyContainsChar uri ':' then "https://" ++ uri
  else "https://" ++ uri ++ ":443"

/-- URI fixing performed by `MilvusTextSearchTool._perform_vector_search`
(`src/tools/milvus_text_search.py`): anything not starting with `http://`
or `https://` is prefixed with `http://`, then trailing slashes are
stripped. -/
def normalize_uri_text_search (uri : String) : String :=
  let u := if pyStartsWith uri "http://" || pyStartsWith uri "https://" then uri
           else "http://" ++ uri
  pyRstripSlash u

theorem isPrefixOf_append_self (l t : List Char) : l.isPrefixOf (l ++ t) = true := by
  induction l with
  | nil => simp [List.isPrefixOf]
  | cons a l ih => simp [List.isPrefixOf, ih]

theorem string_data_append (a b : String) : (a ++ b).data = a.data ++ b.data := rfl

theorem pyStartsWith_prepend (p u : String) : pyStartsWith (p ++ u) p = true := by
  simp [pyStartsWith, string_data_append, isPrefixOf_append_self]

theorem string_append_assoc (a b c : String) : (a ++ b) ++ c = a ++ (b ++ c) :=
  congrArg String.mk (List.append_assoc a.data b.data c.data)

/-- C4 (counterexample). The claim states that URI normalization coerces a
bare `host:port` to `https://host:port` at both cited sites; the
normalization inside `MilvusTextSearchTool._perform_vector_search` instead
coerces `"host:1234"` to `"http://host:1234"`, not `"https://host:1234"`. -/
theorem c4_counterexample :
    normalize_uri_text_search "host:1234" = "http://host:1234"
    ∧ normalize_uri_text_search "host:1234" ≠ "https://host:1234" := by
  constructor
  · decide
  · decide

/-- C4 (amended). The provider-level URI normalization
(`MilvusProvider._validate_milvus_connection`) satisfies every property the
claim states: URIs already prefixed with one of the four accepted schemes
are returned unchanged, a bare `host:port` is coerced to
`https://host:port`, a bare `host` is coerced to `https://host:443`, and
the normalization is idempotent.  (The text-search request path uses the
separate, weaker coercion refuted in the counterexample.) -/
theorem c4_uri_normalization_amended (u : String) :
    (pyStartsWith u "https://" = true ∨ pyStartsWith u "http://" = true ∨
      pyStartsWith u "tcp://" = true ∨ pyStartsWith u "unix://" = true →
      normalize_uri u = u)
    ∧ (pyStartsWith u "https://" = false → pyStartsWith u "http://" = false →
      pyStartsWith u "tcp://" = false → pyStartsWith u "unix://" = false →
      pyContainsChar u ':' = true → normalize_uri u = "https://" ++ u)
    ∧ (pyStartsWith u "https://" = false → pyStartsWith u "http://" = false →
      pyStartsWith u "tcp://" = false → pyStartsWith u "unix://" = false →
      pyContainsChar u ':' = false → normalize_uri u = "https://" ++ u ++ ":443")
    ∧ normalize_uri (normalize_uri u) = normalize_uri u := by
  refine ⟨?_, ?_, ?_, ?_⟩
  · rintro (h | h | h | h)
    · simp [normalize_uri, h]
    · unfold normalize_uri
      cases h1 : pyStartsWith u "https://" <;> simp [h, h1]
    · unfold normalize_uri
      cases h1 : pyStartsWith u "https://" <;> cases h2 : pyStartsWith u "http://" <;>
        simp [h, h1, h2]
    · unfold normalize_uri
      cases h1 : pyStartsWith u "https://" <;> cases h2 : pyStartsWith u "http://" <;>
        cases h3 : pyStartsWith u "tcp://" <;> simp [h, h1, h2, h3]
  · intro h1 h2 h3 h4 h5
    simp [normalize_uri, h1, h2, h3, h4, h5]
  · intro h1 h2 h3 h4 h5
    simp [normalize_uri, h1, h2, h3, h4, h5]
  · unfold normalize_uri
    cases h1 : pyStartsWith u "https://" <;>
      cases h2 : pyStartsWith u "http://" <;>
      cases h3 : pyStartsWith u "tcp://" <;>
      cases h4 : pyStartsWith u "unix://" <;>
      cases h5 : pyContainsChar u ':' <;>
      simp [h1, h2, h3, h4, h5, string_append_assoc, pyStartsWith_prepend]

/-- C4 (witness). The amended theorem applied at `"tcp://milvus.local"`,
`"host:1234"` and `"host"`. -/
theorem c4_witness :
    normalize_uri "tcp://milvus.local" = "tcp://milvus.local"
    ∧ normalize_uri "host:1234" = "https://host:1234"
    ∧ normalize_uri "host" = "https://host:443" := by
  refine ⟨?_, ?_, ?_⟩
  · exact (c4_uri_normalization_amended "tcp://milvus.local").1
      (Or.inr (Or.inr (Or.inl (by decide))))
  · exact (c4_uri_normalization_amended "host:1234").2.1
      (by decide) (by decide) (by decide) (by decide) (by decide)
  · exact (c4_uri_normalization_amended "host").2.2.1
      (by decide) (by decide) (by decide) (by decide) (by decide)

/-! ## Error classification (C5)

`MilvusBaseTool._create_error_response` in `src/tools/milvus_base.py`,
lines 96–141.  The function receives an exception; Lean receives the three
pieces of it the code uses: `str(error)`, `type(error).__name__` and the
operation name. -/

/-- The dictionary returned by `_create_error_response`. -/
structure ErrorResponse where
  success : Bool
  error : String
  error_type : String
  operation : String
  suggestion : String
deriving DecidableEq, Repr

/-- Shallow embedding of `MilvusBaseTool._create_error_response`: a
case-insensitive substring cascade over the raw error text, first match
wins, with a fallback that keeps the raw exception's type name and the
original message. -/
def create_error_response (error_msg error_type_name operation : String) : ErrorResponse :=
  let lmsg := pyLower error_msg
  if pyIn "permission denied" lmsg then
    ⟨false, "Permission denied: Required access not enabled in plugin configuration",
      "PermissionError", operation,
      "Please check plugin manifest permissions or contact administrator"⟩
  else if pyIn "handshake failed" lmsg || pyIn "invalid key" lmsg then
    ⟨false, "Authentication failed: Plugin connection key is invalid or expired",
      "AuthenticationError", operation,
      "Please restart the plugin or check Dify server connection"⟩
  else if pyIn "connection" lmsg || pyIn "timeout" lmsg then
    ⟨false, "Network connectivity issue: Cannot reach required service",
      "ConnectionError", operation,
      "Verify network connectivity and service availability"⟩
  else if pyIn "not found" lmsg || pyIn "does not exist" lmsg then
    ⟨false, "Resource not found: " ++ error_msg,
      "ResourceNotFoundError", operation,
      "Please verify the resource name and ensure it exists"⟩
  else
    ⟨false, pyTitle operation ++ " failed: " ++ error_msg,
      error_type_name, operation,
      "Please check the input parameters and try again"⟩

/-- The spec's error taxonomy (§3, §4.5), restricted to the kinds the
classifier can produce. -/
inductive ErrorKind where
  | PermissionDenied
  | AuthenticationFailure
  | ConnectionFailure
  | ResourceNotFound
  | Unknown (typeName : String)
deriving DecidableEq, Repr

/-- Modelled from the spec (§4.5): case-insensitive substring matching
against the raw error text, in priority order permission-denied →
authentication/handshake/invalid-key → connection/timeout →
not-found/does-not-exist → fallback to the raw exception's own type name;
first match wins. -/
def classify_spec (raw : String) (excTypeName : String) : ErrorKind :=
  let t := pyLower raw
  if pyIn "permission denied" t then ErrorKind.PermissionDenied
  else if pyIn "handshake failed" t || pyIn "invalid key" t then ErrorKind.AuthenticationFailure
  else if pyIn "connection" t || pyIn "timeout" t then ErrorKind.ConnectionFailure
  else if pyIn "not found" t || pyIn "does not exist" t then ErrorKind.ResourceNotFound
  else ErrorKind.Unknown excTypeName

/-- The `error_type` string the code emits for each spec-side error kind. -/
def errorKindTypeName : ErrorKind → String
  | ErrorKind.PermissionDenied => "PermissionError"
  | ErrorKind.AuthenticationFailure => "AuthenticationError"
  | ErrorKind.ConnectionFailure => "ConnectionError"
  | ErrorKind.ResourceNotFound => "ResourceNotFoundError"
  | ErrorKind.Unknown t => t

/-- C5. Error classification in `_create_error_response` is a pure function
of the raw error text that agrees with the spec's priority-ordered,
case-insensitive, first-match-wins cascade; the fallback case keeps the raw
exception's own type name and the original message verbatim; a message
containing `"handshake failed"` (and no higher-priority keyword) classifies
as an authentication failure, and one containing `"does not exist"` (and no
higher-priority keyword) as resource-not-found. -/
theorem c5_error_classification (msg etype op : String) :
    (create_error_response msg etype op).error_type
      = errorKindTypeName (classify_spec msg etype)
    ∧ (create_error_response msg etype op).success = false
    ∧ (classify_spec msg etype = ErrorKind.Unknown etype →
        (create_error_response msg etype op).error = pyTitle op ++ " failed: " ++ msg)
    ∧ (pyIn "handshake failed" (pyLower msg) = true →
        pyIn "permission denied" (pyLower msg) = false →
        classify_spec msg etype = ErrorKind.AuthenticationFailure)
    ∧ (pyIn "does not exist" (pyLower msg) = true →
        pyIn "permission denied" (pyLower msg) = false →
        pyIn "handshake failed" (pyLower msg) = false →
        pyIn "invalid key" (pyLower msg) = false →
        pyIn "connection" (pyLower msg) = false →
        pyIn "timeout" (pyLower msg) = false →
        classify_spec msg etype = ErrorKind.ResourceNotFound) := by
  refine ⟨?_, ?_, ?_, ?_, ?_⟩
  · unfold create_error_response classify_spec errorKindTypeName
    cases h1 : pyIn "permission denied" (pyLower msg) <;>
      cases h2 : pyIn "handshake failed" (pyLower msg) <;>
      cases h3 : pyIn "invalid key" (pyLower msg) <;>
      cases h4 : pyIn "connection" (pyLower msg) <;>
      cases h5 : pyIn "timeout" (pyLower msg) <;>
      cases h6 : pyIn "not found" (pyLower msg) <;>
      cases h7 : pyIn "does not exist" (pyLower msg) <;>
      simp [h1, h2, h3, h4, h5, h6, h7]
  · unfold create_error_response
    cases h1 : pyIn "permission denied" (pyLower msg) <;>
      cases h2 : pyIn "handshake failed" (pyLower msg) <;>
      cases h3 : pyIn "invalid key" (pyLower msg) <;>
      cases h4 : pyIn "connection" (pyLower msg) <;>
      cases h5 : pyIn "timeout" (pyLower msg) <;>
      cases h6 : pyIn "not found" (pyLower msg) <;>
      cases h7 : pyIn "does not exist" (pyLower msg) <;>
      simp [h1, h2, h3, h4, h5, h6, h7]
  · intro hfall
    unfold classify_spec at hfall
    unfold create_error_response
    cases h1 : pyIn "permission denied" (pyLower msg) <;>
      cases h2 : pyIn "handshake failed" (pyLower msg) <;>
      cases h3 : pyIn "invalid key" (pyLower msg) <;>
      cases h4 : pyIn "connection" (pyLower msg) <;>
      cases h5 : pyIn "timeout" (pyLower msg) <;>
      cases h6 : pyIn "not found" (pyLower msg) <;>
      cases h7 : pyIn "does not exist" (pyLower msg) <;>
      simp_all
  · intro h hp
    simp [classify_spec, hp, h]
  · intro h hp hh hk hc ht
    simp [classify_spec, hp, hh, hk, hc, ht, h]

/-- C5 (witness). The classification theorem instantiated at the spec's own
examples: `"handshake failed"` → authentication failure, a message
containing `"does not exist"` → resource-not-found, and an unrecognized
message → fallback with the verbatim message. -/
theorem c5_witness :
    classify_spec "handshake failed" "RuntimeError" = ErrorKind.AuthenticationFailure
    ∧ classify_spec "collection xyz does not exist" "ValueError" = ErrorKind.ResourceNotFound
    ∧ (create_error_response "boom" "KeyError" "insert").error = "Insert failed: boom" := by
  refine ⟨?_, ?_, ?_⟩
  · exact (c5_error_classification "handshake failed" "RuntimeError" "search").2.2.2.1
      (by decide) (by decide)
  · exact (c5_error_classification "collection xyz does not exist" "ValueError" "search").2.2.2.2
      (by decide) (by decide) (by decide) (by decide) (by decide) (by decide)
  · exact (c5_error_classification "boom" "KeyError" "insert").2.2.1 (by decide)

/-! ## Schema builder (C2, C3)

`MilvusClientWrapper.create_collection_with_schema` in
`src/lib/milvus_client.py`, lines 144–194.  The Lean function returns the
fields, functions and index entries the Python method registers on the
schema and index-params objects, in registration order.  Python's falsy
default `text_field = {}` is modelled as `Option.none`. -/

structure VectorFieldConfig where
  name : String
  dim : Nat
deriving DecidableEq, Repr

structure TextFieldConfig where
  name : String
  max_length : Nat
deriving DecidableEq, Repr

structure SchemaConfig where
  collection_name : String
  enable_bm25 : Bool
  vector_field : VectorFieldConfig
  text_field : Option TextFieldConfig
deriving DecidableEq, Repr

inductive FieldType where
  | int64
  | varchar (max_length : Nat) (enable_analyzer : Bool)
  | float_vector (dim : Nat)
  | sparse_float_vector
deriving DecidableEq, Repr

/-- One `schema.add_field(...)` registration. -/
structure FieldDef where
  name : String
  dtype : FieldType
  is_primary : Bool
  auto_id : Bool
deriving DecidableEq, Repr

/-- One `schema.add_function(...)` registration (the BM25 `Function`). -/
structure FunctionDef where
  name : String
  function_type : String
  input_field_names : List String
  output_field_names : List String
deriving DecidableEq, Repr

/-- One `index_params.add_index(...)` registration. -/
structure IndexDef where
  field_name : String
  index_type : String
  metric_type : String
deriving DecidableEq, Repr

/-- Everything `create_collection` receives for the collection. -/
structure BuiltCollection where
  fields : List FieldDef
  functions : List FunctionDef
  indexes : List IndexDef
deriving DecidableEq, Repr

/-- Shallow embedding of
`MilvusClientWrapper.create_collection_with_schema`: id field first, then
the optional analyzer-enabled text field, then the dense vector field, then
(iff BM25 is enabled) the sparse field; the BM25 function is registered
only when BM25 is enabled and a text field is present; the dense index is
always `(AUTOINDEX, COSINE)` and the sparse index, when BM25 is enabled,
`(SPARSE_INVERTED_INDEX, BM25)`. -/
def create_collection_with_schema (cfg : SchemaConfig) : BuiltCollection :=
  let idField : FieldDef := ⟨"id", FieldType.int64, true, true⟩
  let textFields : List FieldDef :=
    match cfg.text_field with
    | some tf => [⟨tf.name, FieldType.varchar tf.max_length true, false, false⟩]
    | none => []
  let vecField : FieldDef :=
    ⟨cfg.vector_field.name, FieldType.float_vector cfg.vector_field.dim, false, false⟩
  let sparseFields : List FieldDef :=
    if cfg.enable_bm25 then [⟨"sparse_vector", FieldType.sparse_float_vector, false, false⟩]
    else []
  let functions : List FunctionDef :=
    if cfg.enable_bm25 then
      match cfg.text_field with
      | some tf => [⟨"text_bm25_emb", "BM25", [tf.name], ["sparse_vector"]⟩]
      | none => []
    else []
  let indexes : List IndexDef :=
    [⟨cfg.vector_field.name, "AUTOINDEX", "COSINE"⟩] ++
      (if cfg.enable_bm25 then [⟨"sparse_vector", "SPARSE_INVERTED_INDEX", "BM25"⟩] else [])
  ⟨[idField] ++ textFields ++ [vecField] ++ sparseFields, functions, indexes⟩

/-- C2. For every configuration with BM25 enabled, a text field and a dense
vector field, the built schema has exactly the fields
`id, <text>, <vector>, sparse_vector` in that order with `id` first as the
auto-assigned int64 primary key, exactly one BM25 function binding the text
field to `sparse_vector`, an `(AUTOINDEX, COSINE)` index on the dense field
and a `(SPARSE_INVERTED_INDEX, BM25)` index on the sparse field. -/
theorem c2_bm25_schema (name : String) (vf : VectorFieldConfig) (tf : TextFieldConfig) :
    create_collection_with_schema ⟨name, true, vf, some tf⟩ =
      ⟨[⟨"id", FieldType.int64, true, true⟩,
        ⟨tf.name, FieldType.varchar tf.max_length true, false, false⟩,
        ⟨vf.name, FieldType.float_vector vf.dim, false, false⟩,
        ⟨"sparse_vector", FieldType.sparse_float_vector, false, false⟩],
       [⟨"text_bm25_emb", "BM25", [tf.name], ["sparse_vector"]⟩],
       [⟨vf.name, "AUTOINDEX", "COSINE"⟩,
        ⟨"sparse_vector", "SPARSE_INVERTED_INDEX", "BM25"⟩]⟩ := rfl

/-- C3 (counterexample). With `enable_bm25 = true` and no text field the
builder does not fail validation: it silently produces a schema whose
fields include `sparse_vector` while registering no BM25 function at all —
exactly the outcome the claim says is rejected. -/
theorem c3_counterexample :
    create_collection_with_schema ⟨"docs", true, ⟨"vector", 1536⟩, none⟩ =
      ⟨[⟨"id", FieldType.int64, true, true⟩,
        ⟨"vector", FieldType.float_vector 1536, false, false⟩,
        ⟨"sparse_vector", FieldType.sparse_float_vector, false, false⟩],
       [],
       [⟨"vector", "AUTOINDEX", "COSINE"⟩,
        ⟨"sparse_vector", "SPARSE_INVERTED_INDEX", "BM25"⟩]⟩
    ∧ (create_collection_with_schema ⟨"docs", true, ⟨"vector", 1536⟩, none⟩).functions = [] := by
  constructor
  · rfl
  · rfl

/-- C3 (amended). For every configuration with `enable_bm25 = true` and no
text field, building does not fail: it produces the fields
`id, <vector>, sparse_vector`, no BM25 function bound to the sparse field,
and both the dense and the sparse index. -/
theorem c3_bm25_without_text_field (name : String) (vf : VectorFieldConfig) :
    create_collection_with_schema ⟨name, true, vf, none⟩ =
      ⟨[⟨"id", FieldType.int64, true, true⟩,
        ⟨vf.name, FieldType.float_vector vf.dim, false, false⟩,
        ⟨"sparse_vector", FieldType.sparse_float_vector, false, false⟩],
       [],
       [⟨vf.name, "AUTOINDEX", "COSINE"⟩,
        ⟨"sparse_vector", "SPARSE_INVERTED_INDEX", "BM25"⟩]⟩ := rfl

/-! ## Min-similarity post-filter (C6)

The `min_similarity` loop in `MilvusTextSearchTool._invoke`
(`src/tools/milvus_text_search.py`, lines 79–95).  Scores are modelled as
rationals. -/

/-- A normalized search hit `{id, score, entity}`, with the `similarity`
key the filter loop adds to surviving hits. -/
structure SearchHit where
  id : Int
  score : ℚ
  similarity : Option ℚ
  entity : List (String × String)
deriving DecidableEq, Repr

/-- Score-to-similarity conversion from the loop body: `1 / (1 + score)`
under `L2`, the raw score otherwise (in particular under `COSINE`). -/
def similarity_of (metric_type : String) (score : ℚ) : ℚ :=
  if metric_type == "L2" then 1 / (1 + score) else score

/-- Shallow embedding of the `min_similarity` filter loop: each hit's score
is converted, hits whose similarity reaches the threshold are kept in order
with their `similarity` recorded, the rest are dropped. -/
def apply_min_similarity (metric_type : String) (min_similarity : ℚ) :
    List SearchHit → List SearchHit
  | [] => []
  | r :: rest =>
    let similarity := similarity_of metric_type r.score
    if min_similarity ≤ similarity then
      { r with similarity := some similarity } ::
        apply_min_similarity metric_type min_similarity rest
    else
      apply_min_similarity metric_type min_similarity rest

/-- C6. With a supplied `min_similarity` threshold the post-filter converts
each raw score to a similarity (identity under `COSINE`, `1 / (1 + d)`
under `L2`), keeps exactly the hits whose similarity reaches the threshold,
and preserves their relative order (the output is a sublist of the
annotated input); in particular, scores `[0.95, 0.5]` under `COSINE` with
threshold `0.8` leave exactly the `0.95` hit. -/
theorem c6_min_similarity_filter (metric_type : String) (min_similarity : ℚ)
    (rs : List SearchHit) (s d : ℚ) :
    apply_min_similarity metric_type min_similarity rs
      = (rs.filter (fun r => decide (min_similarity ≤ similarity_of metric_type r.score))).map
          (fun r => { r with similarity := some (similarity_of metric_type r.score) })
    ∧ similarity_of "COSINE" s = s
    ∧ similarity_of "L2" d = 1 / (1 + d)
    ∧ List.Sublist (apply_min_similarity metric_type min_similarity rs)
        (rs.map (fun r => { r with similarity := some (similarity_of metric_type r.score) }))
    ∧ apply_min_similarity "COSINE" (4/5)
        [⟨1, 19/20, none, []⟩, ⟨2, 1/2, none, []⟩]
      = [⟨1, 19/20, some (19/20), []⟩] := by
  have hfil : ∀ l : List SearchHit,
      apply_min_similarity metric_type min_similarity l
        = (l.filter (fun r => decide (min_similarity ≤ similarity_of metric_type r.score))).map
            (fun r => { r with similarity := some (similarity_of metric_type r.score) }) := by
    intro l
    induction l with
    | nil => rfl
    | cons r rest ih =>
      by_cases h : min_similarity ≤ similarity_of metric_type r.score
      · simp [apply_min_similarity, h, ih]
      · simp [apply_min_similarity, h, ih]
  refine ⟨hfil rs, rfl, rfl, ?_, ?_⟩
  · rw [hfil rs]
    exact (List.filter_sublist rs).map _
  · have hne : ¬ ("COSINE" : String) = "L2" := by decide
    norm_num [apply_min_similarity, similarity_of, hne]

/-! ## Hybrid search refines dense search (C7)

`MilvusClientWrapper.hybrid_search` and `MilvusClientWrapper.vector_search`
in `src/lib/milvus_client.py`, lines 203–252.  The underlying
`self.client.search` call is abstracted as an engine oracle; both wrapper
methods only build one call to it. -/

/-- The argument record a wrapper method passes to `self.client.search`. -/
structure SearchCall where
  collection_name : String
  data : List (List ℚ)
  anns_field : String
  limit : Nat
  output_fields : List String
deriving DecidableEq, Repr

/-- Shallow embedding of `MilvusClientWrapper.vector_search`: a single
engine search over the dense field `"vector"` (`output_fields or []`). -/
def vector_search {α : Type} (engine : SearchCall → α) (collection_name : String)
    (vectors : List (List ℚ)) (limit : Nat) (output_fields : Option (List String)) : α :=
  engine ⟨collection_name, vectors, "vector", limit, output_fields.getD []⟩

/-- Shallow embedding of `MilvusClientWrapper.hybrid_search`: despite
receiving a text query and two weights, it issues one dense engine search
over `[vector]` against the field `"vector"`. -/
def hybrid_search {α : Type} (engine : SearchCall → α) (collection_name : String)
    (vector : List ℚ) (text : String) (limit : Nat)
    (vector_weight text_weight : ℚ) (output_fields : Option (List String)) : α :=
  engine ⟨collection_name, [vector], "vector", limit, output_fields.getD []⟩

/-- C7. For every engine and every hybrid request, `hybrid_search` returns
exactly what a dense `vector_search` of the same single vector with the
same limit and output fields returns, for all text queries and both
weights: the text branch and the weights never influence the engine
call. -/
theorem c7_hybrid_is_dense {α : Type} (engine : SearchCall → α)
    (collection_name : String) (vector : List ℚ) (text : String) (limit : Nat)
    (vector_weight text_weight : ℚ) (output_fields : Option (List String)) :
    hybrid_search engine collection_name vector text limit vector_weight text_weight
        output_fields
      = vector_search engine collection_name [vector] limit output_fields := rfl

/-! ## Delete tool (C1)

`MilvusDeleteTool._invoke` in `src/tools/milvus_delete.py`, lines 28–81,
together with the credential validation of
`MilvusBaseTool._get_milvus_client` it runs through.  The remote engine is
abstracted as two oracles (`has_collection`, the delete count) and the
calls that reach it are recorded as an explicit trace; an empty trace means
no connection or network call was made. -/

/-- The credential dictionary `{uri, user, password, database}`. -/
structure Creds where
  uri : Option String
  user : Option String
  password : Option String
  database : Option String
deriving DecidableEq, Repr

/-- The sequential required-field checks shared by
`MilvusBaseTool._get_milvus_client` and
`MilvusClientWrapper._create_client`: the message of the first failing
check, or `none` when all three fields are present and non-empty. -/
def creds_error (c : Creds) : Option String :=
  if pyTruthy c.uri = false then some "URI is required"
  else if pyTruthy c.user = false then some "Username is required"
  else if pyTruthy c.password = false then some "Password is required"
  else none

/-- The tool parameters `_invoke` reads (`None`/missing modelled as
`none`, an explicit empty string as `some ""`). -/
structure DeleteParams where
  collection_name : Option String
  filter : Option String
deriving DecidableEq, Repr

/-- A call that reaches the remote engine. -/
inductive EngineCall where
  | hasCollectionQuery (collection_name : String)
  | deleteCall (collection_name : String) (filter : String)
deriving DecidableEq, Repr

/-- The JSON response `_invoke` yields. -/
inductive DeleteOutcome where
  | errorResp (error : String)
  | successResp (collection_name : String) (filter : String) (delete_count : Nat)
deriving DecidableEq, Repr

/-- Shallow embedding of `MilvusDeleteTool._invoke`: parameter checks
(collection name, then the mandatory filter), then credential validation,
then the engine calls; the second component is the trace of calls that
reached the engine. -/
def delete_tool_invoke (p : DeleteParams) (creds : Creds)
    (has_collection : String → Bool) (delete_count : String → String → Nat) :
    DeleteOutcome × List EngineCall :=
  if pyTruthy p.collection_name = false then
    (DeleteOutcome.errorResp "collection_name is required", [])
  else if pyTruthy p.filter = false then
    (DeleteOutcome.errorResp "filter expression is required for safety - cannot delete all data",
     [])
  else
    match creds_error creds with
    | some m => (DeleteOutcome.errorResp ("Failed to connect to Milvus: " ++ m), [])
    | none =>
      let c := p.collection_name.getD ""
      let f := p.filter.getD ""
      if has_collection c = false then
        (DeleteOutcome.errorResp ("Collection '" ++ c ++ "' does not exist"),
         [EngineCall.hasCollectionQuery c])
      else
        (DeleteOutcome.successResp c f (delete_count c f),
         [EngineCall.hasCollectionQuery c, EngineCall.deleteCall c f])

/-- Effect of one engine call on the remote state: existence queries do not
mutate it, a delete applies the engine's delete action. -/
def applyEngineCall {σ : Type} (deleteAction : σ → String → String → σ) (st : σ) :
    EngineCall → σ
  | EngineCall.hasCollectionQuery _ => st
  | EngineCall.deleteCall c f => deleteAction st c f

/-- Effect of a trace of engine calls on the remote state. -/
def applyEngineCalls {σ : Type} (deleteAction : σ → String → String → σ) (st : σ) :
    List EngineCall → σ :=
  List.foldl (applyEngineCall deleteAction) st

/-- C1. A delete call with an empty or absent filter fails locally before
any engine call (the trace is empty and any remote state is unchanged) —
with the dedicated safety error whenever the collection name itself was
supplied — while a non-empty filter proceeds to the engine: the delete is
issued there whenever the credentials pass and the collection exists. -/
theorem c1_delete_filter_safety {σ : Type} (p : DeleteParams) (creds : Creds)
    (has_collection : String → Bool) (delete_count : String → String → Nat)
    (deleteAction : σ → String → String → σ) (st : σ) :
    (pyTruthy p.filter = false →
      (∃ msg, (delete_tool_invoke p creds has_collection delete_count).1
          = DeleteOutcome.errorResp msg)
      ∧ (delete_tool_invoke p creds has_collection delete_count).2 = []
      ∧ applyEngineCalls deleteAction st
          (delete_tool_invoke p creds has_collection delete_count).2 = st)
    ∧ (pyTruthy p.collection_name = true → pyTruthy p.filter = false →
      (delete_tool_invoke p creds has_collection delete_count).1
        = DeleteOutcome.errorResp
            "filter expression is required for safety - cannot delete all data")
    ∧ (pyTruthy p.collection_name = true → pyTruthy p.filter = true →
      creds_error creds = none →
      has_collection (p.collection_name.getD "") = true →
      EngineCall.deleteCall (p.collection_name.getD "") (p.filter.getD "")
        ∈ (delete_tool_invoke p creds has_collection delete_count).2) := by
  refine ⟨?_, ?_, ?_⟩
  · intro hf
    cases hc : pyTruthy p.collection_name <;>
      simp [delete_tool_invoke, hc, hf, applyEngineCalls]
  · intro hc hf
    simp [delete_tool_invoke, hc, hf]
  · intro hc hf hcred hhas
    simp [delete_tool_invoke, hc, hf, hcred, hhas]

/-- C1 (witness). The safety theorem applied at an explicit empty filter
(`filter=""`) and at the non-empty filter `"id==1"` with valid credentials
and an existing collection. -/
theorem c1_witness :
    (delete_tool_invoke ⟨some "docs", some ""⟩
        ⟨some "https://h", some "u", some "p", none⟩ (fun _ => true) (fun _ _ => 1)).1
      = DeleteOutcome.errorResp
          "filter expression is required for safety - cannot delete all data"
    ∧ (delete_tool_invoke ⟨some "docs", none⟩
        ⟨some "https://h", some "u", some "p", none⟩ (fun _ => true) (fun _ _ => 1)).2 = []
    ∧ applyEngineCalls (fun (n : Nat) _ _ => n + 1) 0
        (delete_tool_invoke ⟨some "docs", some ""⟩
          ⟨some "https://h", some "u", some "p", none⟩ (fun _ => true) (fun _ _ => 1)).2 = 0
    ∧ EngineCall.deleteCall "docs" "id==1"
        ∈ (delete_tool_invoke ⟨some "docs", some "id==1"⟩
            ⟨some "https://h", some "u", some "p", none⟩ (fun _ => true) (fun _ _ => 1)).2 := by
  refine ⟨?_, ?_, ?_, ?_⟩
  · exact (c1_delete_filter_safety (σ := Nat) ⟨some "docs", some ""⟩
      ⟨some "https://h", some "u", some "p", none⟩ (fun _ => true) (fun _ _ => 1)
      (fun n _ _ => n + 1) 0).2.1 (by decide) (by decide)
  · exact ((c1_delete_filter_safety (σ := Nat) ⟨some "docs", none⟩
      ⟨some "https://h", some "u", some "p", none⟩ (fun _ => true) (fun _ _ => 1)
      (fun n _ _ => n + 1) 0).1 (by decide)).2.1
  · exact ((c1_delete_filter_safety (σ := Nat) ⟨some "docs", some ""⟩
      ⟨some "https://h", some "u", some "p", none⟩ (fun _ => true) (fun _ _ => 1)
      (fun n _ _ => n + 1) 0).1 (by decide)).2.2
  · exact (c1_delete_filter_safety (σ := Nat) ⟨some "docs", some "id==1"⟩
      ⟨some "https://h", some "u", some "p", none⟩ (fun _ => true) (fun _ _ => 1)
      (fun n _ _ => n + 1) 0).2.2 (by decide) (by decide) (by decide) rfl

/-! ## Connection establishment (C8, C10)

`MilvusClientWrapper._create_client` in `src/lib/milvus_client.py`,
lines 41–134.  `urllib.parse.urlparse`, DNS, the TCP probe and the
`MilvusClient` handshake are oracles; the second component of the result is
the trace of network/resource events, in order.  `socket.connect_ex`
reports failures of the C-level connect — including expiry of the
3-second probe timeout, observed as errno `EWOULDBLOCK`/`EAGAIN` (11) — as
a returned error indicator rather than by raising, so the oracle models it
as an integer result. -/

/-- The pieces of `urllib.parse.urlparse(uri)` the code reads. -/
structure ParsedUri where
  scheme : String
  hostname : Option String
  port : Option Nat
deriving DecidableEq, Repr

/-- Outcome of the guarded `MilvusClient(...)` construction: success, the
8-second SIGALRM watchdog firing (the handler raises `TimeoutError`), or
any other exception. -/
inductive HandshakeResult where
  | success
  | timesOut
  | raises (msg : String)
deriving DecidableEq, Repr

/-- The network environment `_create_client` runs against.  `connectEx` is
the error indicator `sock.connect_ex((ip, port))` returns: `0` on success,
a nonzero errno on failure — in particular `EWOULDBLOCK`/`EAGAIN` (11)
when the 3-second probe timeout expires. -/
structure NetOracle where
  dnsResolve : Option String → Except String String
  connectEx : String → Nat → Int
  handshake : HandshakeResult

/-- Network and resource events, in program order. -/
inductive NetEvent where
  | dnsQuery (hostname : Option String)
  | socketOpened
  | socketClosed
  | alarmSet (seconds : Nat)
  | handshakeAttempt
  | alarmDisarmed
deriving DecidableEq, Repr

/-- The exceptions `_create_client` can raise. -/
inductive ClientError where
  | valueError (msg : String)
  | runtimeError (msg : String)
  | timeoutError (msg : String)
  | otherError (msg : String)
deriving DecidableEq, Repr

/-- Python `f"{x}"` on an optional value (`None` prints as `"None"`). -/
def optStr : Option String → String
  | none => "None"
  | some s => s

/-- Shallow embedding of `MilvusClientWrapper._create_client`: credential
checks, then DNS resolution, then the TCP probe — the socket is closed
immediately after `connect_ex` returns its error indicator, before the
indicator is inspected — then the alarm-guarded handshake, which disarms
the alarm on success, watchdog timeout and exception alike. -/
def create_client (creds : Creds) (parse : String → ParsedUri) (net : NetOracle) :
    Except ClientError Unit × List NetEvent :=
  if pyTruthy creds.uri = false then
    (Except.error (ClientError.valueError "URI is required"), [])
  else if pyTruthy creds.user = false then
    (Except.error (ClientError.valueError "Username is required"), [])
  else if pyTruthy creds.password = false then
    (Except.error (ClientError.valueError "Password is required"), [])
  else
    let parsed := parse (creds.uri.getD "")
    let hostname := parsed.hostname
    let port := parsed.port.getD (if parsed.scheme == "https" then 443 else 80)
    match net.dnsResolve hostname with
    | Except.error e =>
      (Except.error (ClientError.runtimeError
          ("Cannot resolve hostname " ++ optStr hostname ++ ": " ++ e)),
       [NetEvent.dnsQuery hostname])
    | Except.ok ip =>
      let c := net.connectEx ip port
      if c == 0 then
        let pre := [NetEvent.dnsQuery hostname, NetEvent.socketOpened,
          NetEvent.socketClosed, NetEvent.alarmSet 8, NetEvent.handshakeAttempt]
        match net.handshake with
        | HandshakeResult.success => (Except.ok (), pre ++ [NetEvent.alarmDisarmed])
        | HandshakeResult.timesOut =>
          (Except.error (ClientError.timeoutError
              "MilvusClient creation timed out after 8 seconds"),
           pre ++ [NetEvent.alarmDisarmed])
        | HandshakeResult.raises m =>
          (Except.error (ClientError.otherError m), pre ++ [NetEvent.alarmDisarmed])
      else
        (Except.error (ClientError.runtimeError
            ("Cannot connect to " ++ optStr hostname ++ ":" ++ toString port ++
              ": Cannot connect to " ++ ip ++ ":" ++ toString port)),
         [NetEvent.dnsQuery hostname, NetEvent.socketOpened, NetEvent.socketClosed])

/-- C8. For each of `uri`, `user` and `password` individually absent or
empty, `_create_client` fails immediately with the corresponding
invalid-credentials `ValueError`, and its event trace is empty: no DNS
resolution, TCP probe or handshake is attempted. -/
theorem c8_credentials_before_network (creds : Creds) (parse : String → ParsedUri)
    (net : NetOracle) :
    (pyTruthy creds.uri = false →
      create_client creds parse net
        = (Except.error (ClientError.valueError "URI is required"), []))
    ∧ (pyTruthy creds.uri = true → pyTruthy creds.user = false →
      create_client creds parse net
        = (Except.error (ClientError.valueError "Username is required"), []))
    ∧ (pyTruthy creds.uri = true → pyTruthy creds.user = true →
      pyTruthy creds.password = false →
      create_client creds parse net
        = (Except.error (ClientError.valueError "Password is required"), [])) := by
  refine ⟨?_, ?_, ?_⟩
  · intro h; simp [create_client, h]
  · intro h1 h2; simp [create_client, h1, h2]
  · intro h1 h2 h3; simp [create_client, h1, h2, h3]

/-- C8 (witness). The theorem applied at concrete credentials missing the
URI, the user and the password respectively. -/
theorem c8_witness :
    create_client ⟨none, some "u", some "p", none⟩
        (fun _ => ⟨"https", some "h", none⟩)
        ⟨fun _ => Except.ok "192.0.2.1", fun _ _ => (0 : Int),
          HandshakeResult.success⟩
      = (Except.error (ClientError.valueError "URI is required"), [])
    ∧ create_client ⟨some "https://h", some "", some "p", none⟩
        (fun _ => ⟨"https", some "h", none⟩)
        ⟨fun _ => Except.ok "192.0.2.1", fun _ _ => (0 : Int),
          HandshakeResult.success⟩
      = (Except.error (ClientError.valueError "Username is required"), [])
    ∧ create_client ⟨some "https://h", some "u", none, none⟩
        (fun _ => ⟨"https", some "h", none⟩)
        ⟨fun _ => Except.ok "192.0.2.1", fun _ _ => (0 : Int),
          HandshakeResult.success⟩
      = (Except.error (ClientError.valueError "Password is required"), []) := by
  refine ⟨?_, ?_, ?_⟩
  · exact (c8_credentials_before_network ⟨none, some "u", some "p", none⟩
      (fun _ => ⟨"https", some "h", none⟩)
      ⟨fun _ => Except.ok "192.0.2.1", fun _ _ => (0 : Int),
        HandshakeResult.success⟩).1 (by decide)
  · exact (c8_credentials_before_network ⟨some "https://h", some "", some "p", none⟩
      (fun _ => ⟨"https", some "h", none⟩)
      ⟨fun _ => Except.ok "192.0.2.1", fun _ _ => (0 : Int),
        HandshakeResult.success⟩).2.1 (by decide) (by decide)
  · exact (c8_credentials_before_network ⟨some "https://h", some "u", none, none⟩
      (fun _ => ⟨"https", some "h", none⟩)
      ⟨fun _ => Except.ok "192.0.2.1", fun _ _ => (0 : Int),
        HandshakeResult.success⟩).2.2 (by decide) (by decide) (by decide)

/-- Occurrence count of one event in a trace. -/
def countEvent (e : NetEvent) : List NetEvent → Nat
  | [] => 0
  | x :: rest => (if x = e then 1 else 0) + countEvent e rest

/-- C10. Every exit path of a `_create_client` connection attempt —
normal return or exception, whether at the credential checks, DNS failure,
a failed or timed-out TCP probe (`connect_ex` reports both, including the
3-second probe timeout, as a returned nonzero error indicator such as
`EAGAIN`, after which `sock.close()` runs unconditionally), or a
handshake that succeeds, hits the 8-second watchdog, or raises — leaves
the attempt's event trace with socket opens balanced by socket closes and
alarm arms balanced by alarm disarms: the probe socket is closed and the
watchdog disarmed before the attempt returns or raises. -/
theorem c10_resource_release (creds : Creds) (parse : String → ParsedUri)
    (net : NetOracle) :
    countEvent NetEvent.socketOpened (create_client creds parse net).2
      = countEvent NetEvent.socketClosed (create_client creds parse net).2
    ∧ countEvent (NetEvent.alarmSet 8) (create_client creds parse net).2
      = countEvent NetEvent.alarmDisarmed (create_client creds parse net).2 := by
  unfold create_client
  dsimp only
  repeat' split
  all_goals simp [countEvent]

/-! ## Recursive serialization of collection descriptions (C9)

`convert_to_serializable` inside `MilvusClientWrapper.describe_collection`
(`src/lib/milvus_client.py`, lines 279–299).  The Python value is an
arbitrary object graph; it is modelled as a heap of numbered objects
(`Nat`-addressed), each either a basic scalar, an object with a `__dict__`
of attribute references, or an iterable of references — references may be
cyclic, exactly as Python references may.  The source recursion has no
cycle or depth guard, so it is embedded with an explicit fuel (recursion
depth) argument: `convert_to_serializable` terminates on an input exactly
when some finite fuel suffices. -/

/-- One object in the heap: a basic scalar (returned as-is), an object
with `__dict__` attributes, or an iterable of items. -/
inductive ObjContent where
  | scalarObj (value : String)
  | attrObj (dict : List (String × Nat))
  | listObj (items : List Nat)

/-- The plain serializable output: scalars, mappings and sequences. -/
inductive SerVal where
  | scalar (value : String)
  | mapVal (fields : List (String × SerVal))
  | seqVal (items : List SerVal)

/-- Convert every element of a list, propagating a failed (out-of-fuel)
conversion. -/
def optTraverse {α β : Type} (f : α → Option β) : List α → Option (List β)
  | [] => some []
  | a :: rest =>
    match f a, optTraverse f rest with
    | some b, some bs => some (b :: bs)
    | _, _ => none

/-- The attributes the code keeps: `__dict__` entries whose key does not
start with an underscore. -/
def publicAttrs (dict : List (String × Nat)) : List (String × Nat) :=
  dict.filter (fun kv => !(pyStartsWith kv.1 "_"))

/-- One unfolding of `convert_to_serializable`, with `rec` standing for the
recursive calls on attribute values and iterable items. -/
def convertStep (rec : Nat → Option SerVal) (heap : Nat → ObjContent) (n : Nat) :
    Option SerVal :=
  match heap n with
  | ObjContent.scalarObj v => some (SerVal.scalar v)
  | ObjContent.attrObj dict =>
    Option.map SerVal.mapVal
      (optTraverse (fun kv => Option.map (fun s => (kv.1, s)) (rec kv.2)) (publicAttrs dict))
  | ObjContent.listObj items => Option.map SerVal.seqVal (optTraverse rec items)

/-- `convert_to_serializable` run with a recursion-depth budget: `none`
means the budget was exhausted before the recursion came back. -/
def convertFuel (heap : Nat → ObjContent) : Nat → Nat → Option SerVal
  | 0, _ => none
  | fuel + 1, n => convertStep (fun m => convertFuel heap fuel m) heap n

/-- The references the conversion recurses into from object `n`. -/
def childRefs (heap : Nat → ObjContent) (n : Nat) : List Nat :=
  match heap n with
  | ObjContent.scalarObj _ => []
  | ObjContent.attrObj dict => (publicAttrs dict).map (fun kv => kv.2)
  | ObjContent.listObj items => items

/-- The conversion terminates on a root object iff some finite recursion
depth completes it. -/
def convertTerminates (heap : Nat → ObjContent) (root : Nat) : Prop :=
  ∃ fuel, (convertFuel heap fuel root).isSome = true

/-- The one-object cyclic heap: object `0` has a single public attribute
`self` referring back to object `0`. -/
def heapCyc : Nat → ObjContent := fun _ => ObjContent.attrObj [("self", 0)]

theorem convertFuel_heapCyc (fuel : Nat) : convertFuel heapCyc fuel 0 = none := by
  induction fuel with
  | zero => rfl
  | succ f ih =>
    have hpub : publicAttrs [("self", 0)] = [("self", 0)] := by decide
    simp [convertFuel, convertStep, heapCyc, hpub, optTraverse, ih]

/-- C9 (counterexample). The claim states the conversion terminates on
every input object graph including self-referential ones; on the concrete
one-object cycle (`obj.self = obj`) no recursion depth ever completes it —
the unguarded source recursion does not terminate. -/
theorem c9_counterexample : ¬ convertTerminates heapCyc 0 := by
  rintro ⟨fuel, h⟩
  rw [convertFuel_heapCyc] at h
  simp at h

theorem isSome_option_map {α β : Type} (f : α → β) (o : Option α) :
    (Option.map f o).isSome = o.isSome := by
  cases o <;> rfl

theorem optTraverse_isSome {α β : Type} (f : α → Option β) (l : List α)
    (h : ∀ a ∈ l, (f a).isSome = true) : (optTraverse f l).isSome = true := by
  induction l with
  | nil => rfl
  | cons a rest ih =>
    have ha := h a (List.mem_cons_self a rest)
    have ht := ih (fun x hx => h x (List.mem_cons_of_mem a hx))
    cases hfa : f a with
    | none => rw [hfa] at ha; simp at ha
    | some b =>
      cases hrest : optTraverse f rest with
      | none => rw [hrest] at ht; simp at ht
      | some bs => simp [optTraverse, hfa, hrest]

/-- C9 (amended). The conversion terminates on every acyclic object graph:
whenever the heap admits a measure that strictly decreases along every
reference the conversion follows, any fuel above the root's measure
completes the conversion — so on cycle-free inputs the recursion
terminates, bounded by the graph's reference depth, while on cyclic inputs
it does not (counterexample). -/
theorem c9_conversion_terminates_on_acyclic (heap : Nat → ObjContent) (μ : Nat → Nat)
    (hμ : ∀ n, ∀ m ∈ childRefs heap n, μ m < μ n) :
    ∀ fuel n, μ n < fuel → (convertFuel heap fuel n).isSome = true := by
  intro fuel
  induction fuel with
  | zero => intro n h; omega
  | succ f ih =>
    intro n h
    show (convertStep (fun m => convertFuel heap f m) heap n).isSome = true
    unfold convertStep
    cases hh : heap n with
    | scalarObj v => simp
    | attrObj dict =>
      simp only [isSome_option_map]
      apply optTraverse_isSome
      intro kv hkv
      simp only [isSome_option_map]
      apply ih
      have hmem : kv.2 ∈ childRefs heap n := by
        rw [childRefs, hh]
        exact List.mem_map.2 ⟨kv, hkv, rfl⟩
      have := hμ n kv.2 hmem
      omega
    | listObj items =>
      simp only [isSome_option_map]
      apply optTraverse_isSome
      intro m hm
      apply ih
      have hmem : m ∈ childRefs heap n := by rw [childRefs, hh]; exact hm
      have := hμ n m hmem
      omega

/-- Two-object acyclic heap: object `0` has one public attribute referring
to the scalar object `1`. -/
def heapAcyc : Nat → ObjContent := fun n =>
  if n = 0 then ObjContent.attrObj [("child", 1)] else ObjContent.scalarObj "leaf"

/-- Reference-depth measure for `heapAcyc`. -/
def muAcyc : Nat → Nat := fun n => if n = 0 then 1 else 0

/-- C9 (witness). The termination theorem applied to the concrete acyclic
two-object heap with its depth measure and fuel `2`. -/
theorem c9_witness : (convertFuel heapAcyc 2 0).isSome = true := by
  refine c9_conversion_terminates_on_acyclic heapAcyc muAcyc ?_ 2 0 (by decide)
  intro n m hm
  by_cases hn : n = 0
  · subst hn
    have h0 : childRefs heapAcyc 0 = [1] := by decide
    rw [h0] at hm
    have : m = 1 := by simpa using hm
    subst this
    decide
  · have h0 : childRefs heapAcyc n = [] := by
      simp [childRefs, heapAcyc, hn]
    rw [h0] at hm
    simp at hm

end Milvus
